import Mathlib

/-!
Shallow embedding of the momentum-scroller engine
(src/src/momentum-scroller/momentumscroller.js, class rflect.ui.MomentumScroller).

JavaScript numbers are modelled as real numbers.  The two places where the
source relies on IEEE special values are made explicit in the embedding:
in getEndVelocity a 0/0 division is NaN (the source maps it to velocity 0)
while a nonzero/0 division is a signed infinity (whose magnitude exceeds the
velocity cap, so the source clamps it to the signed maximum); and the
undefined initial value of the private enabled flag is modelled as an
Option Bool, with the loose-equality test (undefined == boolean is false in
JavaScript) spelled out.

Rendering side effects (CSS transforms and transitions) are modelled by the
numeric values the source writes into them: the content offset written by
animateTo is the contentOffsetY field, and the scaleY factors applied to the
scrollbar line on each render path are given by dedicated functions that
mirror the corresponding expressions of the source.  The live rendered
offset read back by stopMomentum (a CSSMatrix m42 component) is an input
parameter.
-/

namespace MomentumScrollerModel

noncomputable section

/-- Stages of out-of-bounds transitions (QUEUED_TRANSITION_STAGE). -/
inductive Stage where
  | NONE
  | TO_BOUNDS
  | BOUNCED_OUT
  | BOUNCED_BACK
deriving DecidableEq

/-- Drag threshold in pixels (DRAG_THRESHOLD = 5). -/
def DRAG_THRESHOLD : ℝ := 5

/-- Maximum amount of pixels that content is allowed to be dragged outside of
the frame (OUT_OF_BOUNDS_MAXIMUM = 100). -/
def OUT_OF_BOUNDS_MAXIMUM : ℝ := 100

/-- Acceleration for sliding (ACCELERATION_SLIDING = 0.0005). -/
def ACCELERATION_SLIDING : ℝ := 0.0005

/-- Acceleration coefficient for bounce back (ACCELERATION_BOUNCE_BACK_COEFF = 10). -/
def ACCELERATION_BOUNCE_BACK_COEFF : ℝ := 10

/-- Maximum velocity for momentum (MAXIMUM_VELOCITY = 3.5). -/
def MAXIMUM_VELOCITY : ℝ := 3.5

/-- Minimum scrollbar line height (SCROLLBAR_MIN_HEIGHT = 5). -/
def SCROLLBAR_MIN_HEIGHT : ℝ := 5

/-- Sign helper (rflect.math.sign, a one-line library helper outside this
repository): 1 for positive, -1 for negative, 0 for zero.  It is only
consulted by getEndVelocity when the position delta is nonzero, so only the
two signed branches matter. -/
def sign (x : ℝ) : ℝ := if x > 0 then 1 else if x < 0 then -1 else 0

/-- Velocity from the two-sample window, v = (x1 - x0) / (t1 - t0)
(getEndVelocity, lines 1191-1213).  JavaScript float semantics made
explicit: when the time delta is 0 the quotient is NaN if the position delta
is also 0 (the source returns 0 for NaN) and a signed infinity otherwise
(its magnitude exceeds MAXIMUM_VELOCITY, so the source returns the signed
maximum); a finite quotient above the cap in magnitude is replaced by the
maximum signed with the sign of the position delta. -/
def getEndVelocity (previousPoint previousMoment currentPoint currentMoment : ℝ) : ℝ :=
  let dp := currentPoint - previousPoint
  let dt := currentMoment - previousMoment
  if dt = 0 then
    if dp = 0 then 0 else sign dp * MAXIMUM_VELOCITY
  else if |dp / dt| > MAXIMUM_VELOCITY then sign dp * MAXIMUM_VELOCITY
  else dp / dt

/-- Per-instance scroller state.  Mirrors the instance fields of
rflect.ui.MomentumScroller; the content and frame elements are represented
by the tracked element identity and the two measured heights (the only
geometry the engine consults). -/
structure Scroller where
  elementId : Nat
  startTouchY : ℝ
  startTouchX : ℝ
  contentOffsetY : ℝ
  contentStartOffsetY : ℝ
  previousPoint : ℝ
  previousMoment : ℝ
  currentPoint : ℝ
  currentMoment : ℝ
  isDragging_ : Bool
  isDecelerating : Bool
  stopPropagationOnTouchEnd : Bool
  queuedTransitionStage : Stage
  endMomentumVelocity : ℝ
  elementHeight : ℝ
  frameElementHeight : ℝ

/-- Freshly attached scroller state: all numeric fields 0, flags cleared,
stage NONE (the declared initial values of the prototype fields). -/
def initial (elemId : Nat) (elemHeight frameHeight : ℝ) : Scroller :=
  { elementId := elemId
    startTouchY := 0
    startTouchX := 0
    contentOffsetY := 0
    contentStartOffsetY := 0
    previousPoint := 0
    previousMoment := 0
    currentPoint := 0
    currentMoment := 0
    isDragging_ := false
    isDecelerating := false
    stopPropagationOnTouchEnd := false
    queuedTransitionStage := Stage.NONE
    endMomentumVelocity := 0
    elementHeight := elemHeight
    frameElementHeight := frameHeight }

/-- Lowest allowed content position (getLowestContentPosition, line 927):
negative element height plus frame height. -/
def getLowestContentPosition (s : Scroller) : ℝ :=
  -s.elementHeight + s.frameElementHeight

/-- Whether a position is out of the frame bounds (positionIsOutOfBounds,
lines 918-921). -/
def positionIsOutOfBounds (s : Scroller) (aPosition : ℝ) : Prop :=
  aPosition > 0 ∨ aPosition < getLowestContentPosition s

instance (s : Scroller) (p : ℝ) : Decidable (positionIsOutOfBounds s p) := by
  unfold positionIsOutOfBounds; infer_instance

/-- Whether the content element is out of the frame bounds (isOutOfBounds,
line 909). -/
def isOutOfBounds (s : Scroller) : Prop :=
  positionIsOutOfBounds s s.contentOffsetY

instance (s : Scroller) : Decidable (isOutOfBounds s) := by
  unfold isOutOfBounds; infer_instance

/-- Dragging test (isDragging, lines 935-938): the flag, or the distance of
the last sampled point from the start of the touch reaching
DRAG_THRESHOLD. -/
def isDragging (s : Scroller) : Prop :=
  s.isDragging_ = true ∨ |s.currentPoint - s.startTouchY| ≥ DRAG_THRESHOLD

instance (s : Scroller) : Decidable (isDragging s) := by
  unfold isDragging; infer_instance

/-- Height of the scrollbar line (getScrollBarLineHeight, lines 490-496):
frame height divided by the content/frame ratio, floored at
SCROLLBAR_MIN_HEIGHT. -/
def getScrollBarLineHeight (aElementHeight aFrameElementHeight : ℝ) : ℝ :=
  let height := aFrameElementHeight / (aElementHeight / aFrameElementHeight)
  if height < SCROLLBAR_MIN_HEIGHT then SCROLLBAR_MIN_HEIGHT else height

/-- State effect of animateTo (lines 778-824): stores the offset that is
rendered.  The scrollbar transforms written in the same function are modelled
by animateToScrollBarScaleY below. -/
def animateTo (s : Scroller) (offsetY : ℝ) : Scroller :=
  { s with contentOffsetY := offsetY }

/-- The scaleY factor animateTo applies to the scrollbar line (lines
789-823): the line height shrunk by the out-of-bounds overshoot, floored at
SCROLLBAR_MIN_HEIGHT. -/
def animateToScrollBarScaleY (s : Scroller) (offsetY : ℝ) : ℝ :=
  let lowestContentPosition := getLowestContentPosition s
  let offsetYWithinBounds :=
    if offsetY > 0 then 0
    else if offsetY < lowestContentPosition then lowestContentPosition
    else offsetY
  let deltaOutOfBounds := |offsetY - offsetYWithinBounds|
  let scrollBarLineReduced :=
    getScrollBarLineHeight s.elementHeight s.frameElementHeight - deltaOutOfBounds
  if scrollBarLineReduced < SCROLLBAR_MIN_HEIGHT then SCROLLBAR_MIN_HEIGHT
  else scrollBarLineReduced

/-- Clamped move (animateWithinBounds, lines 832-841): the offset is forced
into the valid range before being rendered. -/
def animateWithinBounds (s : Scroller) (aOffsetY : ℝ) : Scroller :=
  let lowestContentPosition := getLowestContentPosition s
  let offsetY :=
    if aOffsetY > 0 then 0
    else if aOffsetY < lowestContentPosition then lowestContentPosition
    else aOffsetY
  animateTo s offsetY

/-- Public setter with DOM scroll-top semantics (setScrollTop, lines
470-473): NaN and 0 both normalize to 0, any other value is sign-inverted,
then clamped by animateWithinBounds.  (NaN has no representative in the real
model; the 0 branch is kept.) -/
def setScrollTop (s : Scroller) (aScrollTop : ℝ) : Scroller :=
  let scrollTop := if aScrollTop = 0 then 0 else -aScrollTop
  animateWithinBounds s scrollTop

/-- Snap of the content to a bound (snapToBounds, lines 848-879): offsets
above 0 go to 0, every other offset goes to the lowest position; the
deceleration flag is always set. -/
def snapToBounds (s : Scroller) : Scroller :=
  let newOffset : ℝ :=
    if s.contentOffsetY > 0 then 0 else getLowestContentPosition s
  { s with contentOffsetY := newOffset, isDecelerating := true }

/-- Acceleration opposing the given velocity (getAcceleration, lines
971-974). -/
def getAcceleration (aVelocity : ℝ) : ℝ :=
  if aVelocity < 0 then ACCELERATION_SLIDING else -ACCELERATION_SLIDING

/-- End velocity after a displacement, vx = sqrt(v0*v0 + 2ad)
(getEndMomentumVelocity, lines 960-964).  Real.sqrt maps a negative radicand
to 0 where JavaScript yields NaN; no claim depends on that corner. -/
def getEndMomentumVelocity (aStartVelocity aDisplacement aAcceleration : ℝ) : ℝ :=
  Real.sqrt (aStartVelocity * aStartVelocity + aDisplacement * 2 * aAcceleration)

/-- Velocity of the scroller state two-sample window. -/
def getEndVelocityOf (s : Scroller) : ℝ :=
  getEndVelocity s.previousPoint s.previousMoment s.currentPoint s.currentMoment

/-- First bounce stage (setUpTransitionStage1, lines 1035-1084): clamp the
content exactly at the crossed bound, record the crossing velocity, and
queue stage TO_BOUNDS. -/
def setUpTransitionStage1 (s : Scroller) : Scroller :=
  let velocity := getEndVelocityOf s
  let acceleration := getAcceleration velocity
  let displacement := if velocity > 0 then -s.contentOffsetY
    else getLowestContentPosition s - s.contentOffsetY
  let newOffset : ℝ := if velocity > 0 then 0 else getLowestContentPosition s
  let endV := (if velocity < 0 then -1 else 1) *
    getEndMomentumVelocity velocity displacement acceleration
  { s with contentOffsetY := newOffset
           endMomentumVelocity := endV
           queuedTransitionStage := Stage.TO_BOUNDS }

/-- The overshoot displacement planned by setUpTransitionStage2 (lines
1087-1102): kinematic displacement -v*v/(2a) for the bounce acceleration,
clamped into [-OUT_OF_BOUNDS_MAXIMUM, OUT_OF_BOUNDS_MAXIMUM]. -/
def setUpTransitionStage2Displacement (velocity : ℝ) : ℝ :=
  let acceleration := getAcceleration velocity * ACCELERATION_BOUNCE_BACK_COEFF
  let displacement := -(velocity * velocity) / (2 * acceleration)
  let displacement2 :=
    if displacement > OUT_OF_BOUNDS_MAXIMUM then OUT_OF_BOUNDS_MAXIMUM
    else displacement
  if displacement2 < -OUT_OF_BOUNDS_MAXIMUM then -OUT_OF_BOUNDS_MAXIMUM
  else displacement2

/-- Second bounce stage (setUpTransitionStage2, lines 1087-1135): move past
the bound by the clamped overshoot displacement and queue stage
BOUNCED_OUT. -/
def setUpTransitionStage2 (s : Scroller) : Scroller :=
  let velocity := s.endMomentumVelocity
  let displacement := setUpTransitionStage2Displacement velocity
  let newY := if velocity > 0 then displacement else s.contentOffsetY + displacement
  { s with contentOffsetY := newY, queuedTransitionStage := Stage.BOUNCED_OUT }

/-- The scaleY factor setUpTransitionStage2 applies to the scrollbar line
(lines 1117-1123): the line height reduced by the overshoot magnitude,
written with no minimum clamp. -/
def setUpTransitionStage2ScaleY (s : Scroller) : ℝ :=
  getScrollBarLineHeight s.elementHeight s.frameElementHeight -
    |setUpTransitionStage2Displacement s.endMomentumVelocity|

/-- Third bounce stage (setUpTransitionStage3, lines 1138-1142): snap back
to the bound and queue stage BOUNCED_BACK. -/
def setUpTransitionStage3 (s : Scroller) : Scroller :=
  { snapToBounds s with queuedTransitionStage := Stage.BOUNCED_BACK }

/-- Transition-finished handler (onTransitionEnd, lines 738-769).  A signal
whose target is not the tracked content element returns, changing nothing.
Otherwise the queued stage selects the next leg: NONE only clears
transitions and the deceleration flag, TO_BOUNDS starts the bounce-out,
BOUNCED_OUT starts the snap-back, BOUNCED_BACK finishes the cycle. -/
def onTransitionEnd (s : Scroller) (target : Nat) : Scroller :=
  if target ≠ s.elementId then s
  else
    match s.queuedTransitionStage with
    | Stage.NONE => { s with isDecelerating := false }
    | Stage.TO_BOUNDS => setUpTransitionStage2 s
    | Stage.BOUNCED_OUT => setUpTransitionStage3 s
    | Stage.BOUNCED_BACK =>
        { s with queuedTransitionStage := Stage.NONE, isDecelerating := false }

/-- Cancellation of in-flight deceleration (stopMomentum, lines 1159-1185).
When decelerating, the live rendered offset (the m42 matrix component read
from the renderer, here the parameter) is written back as the content
offset, the queued stage collapses to NONE and propagation stopping is
armed; otherwise only the flags are cleared. -/
def stopMomentum (s : Scroller) (liveOffset : ℝ) : Scroller :=
  if s.isDecelerating then
    { animateTo s liveOffset with
        queuedTransitionStage := Stage.NONE
        stopPropagationOnTouchEnd := true
        isDecelerating := false }
  else
    { s with stopPropagationOnTouchEnd := false, isDecelerating := false }

/-- Touch-start handler (onTouchStart, lines 573-594): stop any momentum,
capture the touch point and the current content offset, reset the velocity
window to the touch point and mark dragging. -/
def onTouchStart (s : Scroller) (touchY touchX now liveOffset : ℝ) : Scroller :=
  let s1 := stopMomentum s liveOffset
  { s1 with
      startTouchY := touchY
      startTouchX := touchX
      contentStartOffsetY := s1.contentOffsetY
      previousPoint := touchY
      currentPoint := touchY
      previousMoment := now
      currentMoment := now
      isDragging_ := true }

/-- Touch-move handler (onTouchMove, lines 600-627): when dragging, the
delta from the drag start is exponentially damped if the content is out of
bounds, the velocity window rolls forward, and the new offset is
rendered. -/
def onTouchMove (s : Scroller) (currentY now : ℝ) : Scroller :=
  if isDragging s then
    let deltaY := currentY - s.startTouchY
    let deltaY2 := if isOutOfBounds s then deltaY / Real.exp |deltaY / 550| else deltaY
    let newY := deltaY2 + s.contentStartOffsetY
    animateTo
      { s with
          isDragging_ := true
          previousPoint := s.currentPoint
          previousMoment := s.currentMoment
          currentPoint := currentY
          currentMoment := now }
      newY
  else s

/-- The exponential rubber-band damping applied by onTouchMove (line 612):
deltaY / exp(abs(deltaY / 550)). -/
def dampDelta (d : ℝ) : ℝ := d / Real.exp |d / 550|

/-- Momentum decision at drag release (doMomentum, lines 989-1032): with a
nonzero window velocity, either a direct deceleration to the kinematic
resting position (when it stays in bounds) or the first bounce stage; zero
velocity only hides the scrollbar. -/
def doMomentum (s : Scroller) : Scroller :=
  let velocity := getEndVelocityOf s
  if velocity ≠ 0 then
    let acceleration := getAcceleration velocity
    let displacement := -(velocity * velocity) / (2 * acceleration)
    let newY := s.contentOffsetY + displacement
    let s1 :=
      if positionIsOutOfBounds s newY then setUpTransitionStage1 s
      else { s with contentOffsetY := newY }
    { s1 with isDecelerating := true }
  else s

/-- Touch-end handler (onTouchEnd, lines 633-678).  Returns the new state
and whether a click was synthesized (synthesizeClick at the touch
coordinates, which the source only reaches when neither propagation
stopping was armed nor the drag distance reached DRAG_THRESHOLD).  When
dragging, an out-of-bounds position always snaps to bounds
(shouldStartMomentum, lines 947-951), otherwise momentum runs; finally the
window, the touch anchors and the dragging flag are reset. -/
def onTouchEnd (s : Scroller) : Scroller × Bool :=
  let s1 :=
    if isDragging s then
      if isOutOfBounds s then snapToBounds s else doMomentum s
    else s
  let suppress :=
    s1.stopPropagationOnTouchEnd = true ∨
      |s.currentPoint - s.startTouchY| ≥ DRAG_THRESHOLD
  ({ s1 with
      stopPropagationOnTouchEnd :=
        if suppress then false else s1.stopPropagationOnTouchEnd
      previousPoint := 0
      previousMoment := 0
      currentPoint := 0
      currentMoment := 0
      startTouchY := 0
      startTouchX := 0
      isDragging_ := false }, if suppress then false else true)

/-- States of one scroller instance reachable from a fresh attachment by
the event handlers and the public offset setter. -/
inductive Reachable : Scroller → Prop where
  | init (elemId : Nat) (elemHeight frameHeight : ℝ) :
      Reachable (initial elemId elemHeight frameHeight)
  | touchStart (s : Scroller) (touchY touchX now liveOffset : ℝ) :
      Reachable s → Reachable (onTouchStart s touchY touchX now liveOffset)
  | touchMove (s : Scroller) (currentY now : ℝ) :
      Reachable s → Reachable (onTouchMove s currentY now)
  | touchEnd (s : Scroller) :
      Reachable s → Reachable (onTouchEnd s).1
  | transitionEnd (s : Scroller) (target : Nat) :
      Reachable s → Reachable (onTransitionEnd s target)
  | scrollTop (s : Scroller) (v : ℝ) :
      Reachable s → Reachable (setScrollTop s v)

/-- The cycle order of the transition stages claimed by the specification:
NONE then TO_BOUNDS then BOUNCED_OUT then BOUNCED_BACK then NONE again, with
NONE absorbing for finish-signals. -/
def cycleNext : Stage → Stage
  | Stage.NONE => Stage.NONE
  | Stage.TO_BOUNDS => Stage.BOUNCED_OUT
  | Stage.BOUNCED_OUT => Stage.BOUNCED_BACK
  | Stage.BOUNCED_BACK => Stage.NONE

/-- Finish-signal step on the tracked content element. -/
def stepOwn (s : Scroller) : Scroller := onTransitionEnd s s.elementId

/-- The bound of the two {0, lowest} nearer to the given offset, as worded
by the specification (ties resolved to the lowest bound; for an offset out
of bounds with lowest at most 0 the tie can only occur when both bounds
coincide). -/
def nearestBound (offset lowest : ℝ) : ℝ :=
  if |offset| < |offset - lowest| then 0 else lowest

/-- Geometry of the worked scenarios of the specification: frame height 300,
content height 900, so the lowest content position is -600. -/
def geom3 : Scroller := initial 0 900 300

/-- Out-of-bounds state used to evaluate the damping at a zero delta. -/
def cex4 : Scroller := { initial 0 900 300 with contentOffsetY := 50 }

/-- In-bounds state near the upper bound used against the nearer-bound
wording of the snap. -/
def cex7 : Scroller := { initial 0 900 300 with contentOffsetY := -10 }

/-- Mid-scroll state for the sub-threshold flick gesture. -/
def cex8 : Scroller := { initial 0 900 300 with contentOffsetY := -300 }

/-- State of cex8 after a touch-start at y = 100, x = 50, time 0. -/
def c8a : Scroller :=
  ⟨0, 100, 50, -300, -300, 100, 0, 100, 0, true, false, false, Stage.NONE, 0, 900, 300⟩

/-- State of c8a after a touch-move to y = 103 at time 1. -/
def c8b : Scroller :=
  ⟨0, 100, 50, -297, -300, 100, 0, 103, 1, true, false, false, Stage.NONE, 0, 900, 300⟩

/-- Bounce-out state with pending end velocity 1 on the scenario geometry:
the scrollbar line height is 100 and the planned overshoot is 100. -/
def cex9 : Scroller := { initial 0 900 300 with endMomentumVelocity := 1 }

end

/-- Process-wide and per-instance state touched by enable (lines 356-395):
the global instance counter, the shared stylesheet presence, the private
enabled flag (Option Bool, none standing for the undefined initial value of
the prototype field) and whether the elements and listeners of this
instance are attached. -/
structure World where
  instancesCount : ℤ
  enabled : Option Bool
  hasStyleSheet : Bool
  elementsAttached : Bool
deriving DecidableEq

/-- JavaScript loose equality between the possibly-undefined enabled flag
and a boolean: undefined == b is false for either boolean b. -/
def looseEqEnabled : Option Bool → Bool → Bool
  | some x, b => x == b
  | none, _ => false

/-- The enable method (lines 356-395).  An argument loosely equal to the
current flag returns immediately with no change.  Enabling increments the
global counter (the first instance injects the shared stylesheet) and
attaches; disabling decrements the counter, clamps it at zero, removes the
shared stylesheet when the counter reaches zero and detaches. -/
def enable (w : World) (aEnabled : Bool) : World :=
  if looseEqEnabled w.enabled aEnabled then w
  else if aEnabled then
    let c := w.instancesCount + 1
    { w with
        enabled := some true
        instancesCount := c
        hasStyleSheet := if c = 1 then true else w.hasStyleSheet
        elementsAttached := true }
  else
    let c0 := w.instancesCount - 1
    let c := if c0 < 0 then 0 else c0
    { w with
        enabled := some false
        instancesCount := c
        hasStyleSheet := if c = 0 then false else w.hasStyleSheet
        elementsAttached := false }

/-- An enabled one-instance world, used to witness the idempotence of
enable. -/
def w0 : World :=
  { instancesCount := 1, enabled := some true, hasStyleSheet := true,
    elementsAttached := true }

section Theorems

/-- Helper: the signed maximum velocity has magnitude at most the maximum. -/
lemma abs_sign_mul_max_le (x : ℝ) :
    |sign x * MAXIMUM_VELOCITY| ≤ MAXIMUM_VELOCITY := by
  unfold sign MAXIMUM_VELOCITY
  split_ifs <;> rw [abs_le] <;> constructor <;> norm_num

/-- C5: for every pending end velocity carried into the BOUNCED_OUT stage,
the planned overshoot displacement, computed as -v*v/(2a) for the bounce
acceleration (10 times the sliding acceleration opposing v), is clamped so
that its magnitude never exceeds OUT_OF_BOUNDS_MAXIMUM = 100, and it is
this clamped displacement that setUpTransitionStage2 renders. -/
theorem C5_overshoot_clamped :
    (∀ velocity : ℝ,
      |setUpTransitionStage2Displacement velocity| ≤ OUT_OF_BOUNDS_MAXIMUM) ∧
    (∀ s : Scroller, (setUpTransitionStage2 s).contentOffsetY =
      (if s.endMomentumVelocity > 0 then
        setUpTransitionStage2Displacement s.endMomentumVelocity
      else s.contentOffsetY +
        setUpTransitionStage2Displacement s.endMomentumVelocity)) := by
  constructor
  · intro velocity
    simp only [setUpTransitionStage2Displacement, OUT_OF_BOUNDS_MAXIMUM]
    split_ifs <;> rw [abs_le] <;> constructor <;> norm_num <;> linarith
  · intro s
    simp [setUpTransitionStage2]

/-- C9 counterexample: on the scenario geometry with a pending end velocity
of 1, the bounce-out stage applies scaleY 0 to the scrollbar line, below
the minimum of 5 (the reduction by the overshoot magnitude is written with
no clamp on this render path). -/
theorem C9_counterexample :
    setUpTransitionStage2ScaleY cex9 = 0 ∧ ¬(SCROLLBAR_MIN_HEIGHT ≤ (0 : ℝ)) := by
  constructor
  · norm_num [setUpTransitionStage2ScaleY, setUpTransitionStage2Displacement,
      getScrollBarLineHeight, getAcceleration, ACCELERATION_SLIDING,
      ACCELERATION_BOUNCE_BACK_COEFF, OUT_OF_BOUNDS_MAXIMUM,
      SCROLLBAR_MIN_HEIGHT, cex9, initial, abs_of_pos]
  · norm_num [SCROLLBAR_MIN_HEIGHT]

/-- C9 amended: the scrollbar line scale is at least SCROLLBAR_MIN_HEIGHT = 5
on the initial-sizing path (getScrollBarLineHeight, also applied by the
snap) and on the per-move path (animateTo), for every content/frame size
ratio; on the bounce-out path, however, the applied scale is the line height
reduced by the overshoot magnitude with no minimum clamp, and it can fall
below 5 (C9_counterexample). -/
theorem C9_scrollbar_min :
    (∀ aElementHeight aFrameElementHeight : ℝ,
      SCROLLBAR_MIN_HEIGHT ≤
        getScrollBarLineHeight aElementHeight aFrameElementHeight) ∧
    (∀ (s : Scroller) (offsetY : ℝ),
      SCROLLBAR_MIN_HEIGHT ≤ animateToScrollBarScaleY s offsetY) ∧
    (∀ s : Scroller, setUpTransitionStage2ScaleY s =
      getScrollBarLineHeight s.elementHeight s.frameElementHeight -
        |setUpTransitionStage2Displacement s.endMomentumVelocity|) := by
  refine ⟨?_, ?_, ?_⟩
  · intro eh fh
    simp only [getScrollBarLineHeight, SCROLLBAR_MIN_HEIGHT]
    split_ifs <;> linarith
  · intro s offsetY
    simp only [animateToScrollBarScaleY, SCROLLBAR_MIN_HEIGHT]
    split_ifs <;> linarith
  · intro s
    rfl

/-- Helper: enabling with the current boolean flag value is a no-op. -/
lemma enable_self (w : World) (b : Bool) (h : w.enabled = some b) :
    enable w b = w := by
  unfold enable
  rw [h]
  simp [looseEqEnabled]

/-- Helper: after a disable call the flag is the boolean false. -/
lemma enable_false_enabled (w : World) : (enable w false).enabled = some false := by
  unfold enable
  by_cases h1 : looseEqEnabled w.enabled false = true
  · rw [if_pos h1]
    cases he : w.enabled with
    | none => rw [he] at h1; simp [looseEqEnabled] at h1
    | some x =>
        rw [he] at h1
        simp [looseEqEnabled] at h1
        rw [h1]
  · rw [if_neg h1]
    simp

/-- C10: enable is idempotent on the requested state (an argument loosely
equal to the current flag changes nothing), a second remove in a row is a
no-op (so two removes decrement the process-wide counter at most once), and
the counter never goes negative under any enable call. -/
theorem C10_enable_idempotent :
    (∀ (w : World) (b : Bool), w.enabled = some b → enable w b = w) ∧
    (∀ w : World, enable (enable w false) false = enable w false) ∧
    (∀ (w : World) (b : Bool), 0 ≤ w.instancesCount →
      0 ≤ (enable w b).instancesCount) := by
  refine ⟨enable_self, ?_, ?_⟩
  · intro w
    exact enable_self (enable w false) false (enable_false_enabled w)
  · intro w b h
    simp only [enable]
    split_ifs with h1 h2 h3
    · exact h
    all_goals simp
    all_goals omega

/-- C10 witness: enabling an already-enabled instance changes nothing. -/
theorem C10_witness : enable w0 true = w0 :=
  C10_enable_idempotent.1 w0 true rfl

/-- C2 counterexample: a window with time delta 0 but position delta 100
(previous point 0 at time 0, current point 100 at time 0) makes the source
division yield a signed infinity, which the cap turns into the maximum
velocity 3.5, not the 0 the claim requires for a zero time delta. -/
theorem C2_counterexample :
    getEndVelocity 0 0 100 0 = MAXIMUM_VELOCITY ∧ MAXIMUM_VELOCITY ≠ 0 := by
  constructor
  · norm_num [getEndVelocity, sign, MAXIMUM_VELOCITY]
  · norm_num [MAXIMUM_VELOCITY]

/-- C2 amended: the returned magnitude is always at most
MAXIMUM_VELOCITY = 3.5; a window with both deltas 0 (the NaN division)
returns 0; a zero time delta with a nonzero position delta (an infinite
quotient) returns the maximum signed with the position delta; a finite
quotient is returned as is when within the cap and otherwise replaced by the
maximum signed with the position delta. -/
theorem C2_velocity_capped (pp pm cp cm : ℝ) :
    |getEndVelocity pp pm cp cm| ≤ MAXIMUM_VELOCITY ∧
    (cm - pm = 0 → cp - pp = 0 → getEndVelocity pp pm cp cm = 0) ∧
    (cm - pm = 0 → cp - pp ≠ 0 →
      getEndVelocity pp pm cp cm = sign (cp - pp) * MAXIMUM_VELOCITY) ∧
    (cm - pm ≠ 0 → ¬(|(cp - pp) / (cm - pm)| > MAXIMUM_VELOCITY) →
      getEndVelocity pp pm cp cm = (cp - pp) / (cm - pm)) ∧
    (cm - pm ≠ 0 → |(cp - pp) / (cm - pm)| > MAXIMUM_VELOCITY →
      getEndVelocity pp pm cp cm = sign (cp - pp) * MAXIMUM_VELOCITY) := by
  refine ⟨?_, ?_, ?_, ?_, ?_⟩
  · simp only [getEndVelocity]
    split_ifs with h1 h2 h3
    · rw [abs_zero]; norm_num [MAXIMUM_VELOCITY]
    · exact abs_sign_mul_max_le _
    · exact abs_sign_mul_max_le _
    · exact not_lt.mp h3
  · intro h1 h2
    simp only [getEndVelocity]
    rw [if_pos h1, if_pos h2]
  · intro h1 h2
    simp only [getEndVelocity]
    rw [if_pos h1, if_neg h2]
  · intro h1 h2
    simp only [getEndVelocity]
    rw [if_neg h1, if_neg h2]
  · intro h1 h2
    simp only [getEndVelocity]
    rw [if_neg h1, if_pos h2]

/-- C2 witness: the degenerate window of a plain tap (no move at all)
yields velocity 0. -/
theorem C2_witness : getEndVelocity 0 0 0 0 = 0 :=
  (C2_velocity_capped 0 0 0 0).2.1 (by norm_num) (by norm_num)

/-- Helper: one finish-signal on the tracked element advances the stage
along the claimed cycle. -/
lemma stepOwn_stage (s : Scroller) :
    (stepOwn s).queuedTransitionStage = cycleNext s.queuedTransitionStage := by
  unfold stepOwn onTransitionEnd
  rw [if_neg (by simp)]
  cases h : s.queuedTransitionStage <;>
    simp [h, setUpTransitionStage2, setUpTransitionStage3, snapToBounds, cycleNext]

/-- C1: finish-signals drive the stage machine around the total cycle: a
signal for an element other than the tracked content element changes
nothing at all; a signal on the tracked element advances the stage along
NONE, TO_BOUNDS, BOUNCED_OUT, BOUNCED_BACK, back to NONE; a signal in stage
NONE leaves the stage NONE; and from any stage at most three signals land
the machine in NONE, where it stays. -/
theorem C1_transition_cycle :
    (∀ (s : Scroller) (target : Nat),
      target ≠ s.elementId → onTransitionEnd s target = s) ∧
    (∀ s : Scroller,
      (stepOwn s).queuedTransitionStage = cycleNext s.queuedTransitionStage) ∧
    (∀ s : Scroller, s.queuedTransitionStage = Stage.NONE →
      (stepOwn s).queuedTransitionStage = Stage.NONE) ∧
    (∀ s : Scroller,
      (stepOwn (stepOwn (stepOwn s))).queuedTransitionStage = Stage.NONE) := by
  refine ⟨?_, stepOwn_stage, ?_, ?_⟩
  · intro s target h
    unfold onTransitionEnd
    rw [if_pos h]
  · intro s h
    rw [stepOwn_stage, h]
    rfl
  · intro s
    rw [stepOwn_stage, stepOwn_stage, stepOwn_stage]
    cases s.queuedTransitionStage <;> rfl

/-- C1 witness: a finish-signal for an element other than the tracked one
is a complete no-op on a fresh scroller. -/
theorem C1_witness :
    onTransitionEnd (initial 0 900 300) 1 = initial 0 900 300 :=
  C1_transition_cycle.1 (initial 0 900 300) 1 (by simp [initial])

/-- C3 counterexample: on the scenario geometry (frame 300, content 900,
lowest -600), the setter called with -10000 stores content offset 0, not
the -600 the claim names (a negative DOM scroll-top inverts to a positive
internal offset, which clamps to the top bound). -/
theorem C3_counterexample :
    (setScrollTop geom3 (-10000)).contentOffsetY = 0 ∧ (0 : ℝ) ≠ -600 := by
  constructor
  · norm_num [setScrollTop, animateWithinBounds, animateTo,
      getLowestContentPosition, geom3, initial]
  · norm_num

/-- C3 amended: every value passed to setScrollTop leaves the content
offset inside the valid range [lowest, 0] whenever the geometry satisfies
lowest at most 0; on the scenario geometry the DOM scroll-top 10000 clamps
to content offset -600 while -10000 clamps to content offset 0. -/
theorem C3_setScrollTop_clamps :
    (∀ (s : Scroller) (v : ℝ), getLowestContentPosition s ≤ 0 →
      getLowestContentPosition s ≤ (setScrollTop s v).contentOffsetY ∧
      (setScrollTop s v).contentOffsetY ≤ 0) ∧
    (setScrollTop geom3 10000).contentOffsetY = -600 ∧
    (setScrollTop geom3 (-10000)).contentOffsetY = 0 := by
  refine ⟨?_, ?_, ?_⟩
  · intro s v h
    simp only [setScrollTop, animateWithinBounds, animateTo]
    split_ifs <;> constructor <;> linarith
  · norm_num [setScrollTop, animateWithinBounds, animateTo,
      getLowestContentPosition, geom3, initial]
  · norm_num [setScrollTop, animateWithinBounds, animateTo,
      getLowestContentPosition, geom3, initial]

/-- C3 witness: a concrete in-range call on the scenario geometry stays in
the valid range. -/
theorem C3_witness :
    getLowestContentPosition geom3 ≤ (setScrollTop geom3 5).contentOffsetY ∧
    (setScrollTop geom3 5).contentOffsetY ≤ 0 :=
  C3_setScrollTop_clamps.1 geom3 5
    (by norm_num [getLowestContentPosition, geom3, initial])

/-- C7 counterexample: from the in-bounds prior offset -10 on the scenario
geometry, the snap stores the far bound -600 even though the nearer of the
two bounds is 0 (the source picks 0 only for offsets strictly above 0). -/
theorem C7_counterexample :
    (snapToBounds cex7).contentOffsetY = -600 ∧
    nearestBound cex7.contentOffsetY (getLowestContentPosition cex7) = 0 ∧
    (-600 : ℝ) ≠ 0 := by
  refine ⟨?_, ?_, by norm_num⟩
  · norm_num [snapToBounds, getLowestContentPosition, cex7, initial]
  · norm_num [nearestBound, getLowestContentPosition, cex7, initial]

/-- C7 amended: the snap always sets the deceleration flag, and stores 0
for prior offsets above 0 and the lowest position for every other prior
offset; for a prior offset that is actually out of bounds (the only
situation in which the source invokes the snap) this is exactly the nearer
of the two bounds. -/
theorem C7_snap_characterization :
    (∀ s : Scroller, (snapToBounds s).isDecelerating = true) ∧
    (∀ s : Scroller, (snapToBounds s).contentOffsetY =
      (if s.contentOffsetY > 0 then 0 else getLowestContentPosition s)) ∧
    (∀ s : Scroller, getLowestContentPosition s ≤ 0 → isOutOfBounds s →
      (snapToBounds s).contentOffsetY =
        nearestBound s.contentOffsetY (getLowestContentPosition s)) := by
  refine ⟨?_, ?_, ?_⟩
  · intro s
    simp [snapToBounds]
  · intro s
    simp [snapToBounds]
  · intro s hlow hoob
    rcases hoob with hpos | hneg
    · simp only [snapToBounds, nearestBound]
      rw [if_pos hpos, abs_of_pos hpos,
        abs_of_pos (show (0:ℝ) < s.contentOffsetY - getLowestContentPosition s by
          linarith)]
      by_cases hl : getLowestContentPosition s < 0
      · rw [if_pos (by linarith)]
      · rw [if_neg (not_lt.mpr (by linarith))]
        linarith
    · have hneg0 : s.contentOffsetY < 0 := by linarith
      simp only [snapToBounds, nearestBound]
      rw [if_neg (not_lt.mpr (by linarith : s.contentOffsetY ≤ 0)),
        abs_of_neg hneg0,
        abs_of_neg (show s.contentOffsetY - getLowestContentPosition s < 0 by
          linarith),
        if_neg (not_lt.mpr (by linarith))]

/-- C7 witness: for an out-of-bounds prior offset the snap does go to the
nearer bound. -/
theorem C7_witness :
    (snapToBounds { initial 0 900 300 with contentOffsetY := 50 }).contentOffsetY =
      nearestBound
        ({ initial 0 900 300 with contentOffsetY := 50 } : Scroller).contentOffsetY
        (getLowestContentPosition { initial 0 900 300 with contentOffsetY := 50 }) :=
  C7_snap_characterization.2.2 _
    (by norm_num [getLowestContentPosition, initial])
    (by norm_num [isOutOfBounds, positionIsOutOfBounds, initial])

/-- C4 counterexample: in an out-of-bounds state a touch-move with zero
delta is damped to zero as well, so the damped magnitude equals the raw
magnitude instead of being strictly smaller. -/
theorem C4_counterexample :
    isOutOfBounds cex4 ∧ dampDelta 0 = 0 ∧ ¬(|dampDelta 0| < |(0 : ℝ)|) := by
  refine ⟨?_, ?_, ?_⟩
  · norm_num [isOutOfBounds, positionIsOutOfBounds, getLowestContentPosition,
      cex4, initial]
  · simp [dampDelta]
  · simp [dampDelta]

/-- C4 amended: during an out-of-bounds touch-move the applied offset is the
raw delta from drag start damped by division with exp(abs(delta)/550); for
every nonzero raw delta the damped magnitude is strictly below the raw
magnitude; and the effect of the damping tends to 0 as the delta tends
to 0. -/
theorem C4_rubber_band :
    (∀ (s : Scroller) (currentY now : ℝ), isDragging s → isOutOfBounds s →
      (onTouchMove s currentY now).contentOffsetY =
        dampDelta (currentY - s.startTouchY) + s.contentStartOffsetY) ∧
    (∀ d : ℝ, dampDelta d = d / Real.exp (|d| / 550)) ∧
    (∀ d : ℝ, d ≠ 0 → |dampDelta d| < |d|) ∧
    Filter.Tendsto (fun d : ℝ => d - dampDelta d) (nhds 0) (nhds 0) := by
  refine ⟨?_, ?_, ?_, ?_⟩
  · intro s currentY now hdrag hoob
    simp [onTouchMove, animateTo, dampDelta, hdrag, hoob]
  · intro d
    simp only [dampDelta]
    rw [abs_div]
    norm_num
  · intro d hd
    have he : (1 : ℝ) < Real.exp |d / 550| :=
      Real.one_lt_exp_iff.mpr (abs_pos.mpr (div_ne_zero hd (by norm_num)))
    have habs : |dampDelta d| = |d| / Real.exp |d / 550| := by
      simp only [dampDelta]
      rw [abs_div, abs_of_pos (Real.exp_pos _)]
    rw [habs]
    exact div_lt_self (abs_pos.mpr hd) he
  · have hc : Continuous fun d : ℝ => d - dampDelta d := by
      simp only [dampDelta]
      exact continuous_id.sub (continuous_id.div
        (Real.continuous_exp.comp ((continuous_id.div_const 550).abs))
        (fun x => (Real.exp_pos _).ne'))
    have h0 := hc.tendsto 0
    simpa [dampDelta] using h0

/-- C4 witness: a concrete nonzero out-of-bounds delta is strictly
attenuated. -/
theorem C4_witness : |dampDelta 550| < |(550 : ℝ)| :=
  C4_rubber_band.2.2.1 550 (by norm_num)

/-- Helper: in every reachable state, a non-NONE queued stage implies the
deceleration flag is set (so stopMomentum always collapses the stage). -/
lemma stage_decel_invariant {s : Scroller} (h : Reachable s) :
    s.queuedTransitionStage ≠ Stage.NONE → s.isDecelerating = true := by
  induction h with
  | init elemId eH fH => simp [initial]
  | touchStart s y x t live hr ih =>
      by_cases hd : s.isDecelerating = true
      · simp [onTouchStart, stopMomentum, hd, animateTo]
      · have hstage : s.queuedTransitionStage = Stage.NONE := by
          by_contra hne
          exact hd (ih hne)
        simp [onTouchStart, stopMomentum, hd, hstage]
  | touchMove s currentY now hr ih =>
      by_cases hdr : isDragging s
      · simpa [onTouchMove, animateTo, hdr] using ih
      · simpa [onTouchMove, hdr] using ih
  | touchEnd s hr ih =>
      by_cases hdr : isDragging s
      · by_cases hoob : isOutOfBounds s
        · simp [onTouchEnd, hdr, hoob, snapToBounds]
        · by_cases hv : getEndVelocityOf s ≠ 0
          · simp [onTouchEnd, hdr, hoob, doMomentum, hv]
          · simpa [onTouchEnd, hdr, hoob, doMomentum, hv] using ih
      · simpa [onTouchEnd, hdr] using ih
  | transitionEnd s target hr ih =>
      by_cases ht : target ≠ s.elementId
      · simpa [onTransitionEnd, ht] using ih
      · cases hstage : s.queuedTransitionStage with
        | NONE => simp [onTransitionEnd, ht, hstage]
        | TO_BOUNDS =>
            simp only [onTransitionEnd, ht, hstage, if_false,
              setUpTransitionStage2]
            intro _
            exact ih (by simp [hstage])
        | BOUNCED_OUT =>
            simp [onTransitionEnd, ht, hstage, setUpTransitionStage3,
              snapToBounds]
        | BOUNCED_BACK => simp [onTransitionEnd, ht, hstage]
  | scrollTop s v hr ih =>
      simpa [setScrollTop, animateWithinBounds, animateTo] using ih

/-- C6: from every reachable state of the controller, running the
touch-start handler leaves the queued transition stage at NONE, and when a
deceleration was in flight the content offset equals the live offset read
back from the renderer, so the visual position does not jump. -/
theorem C6_touchStart_collapses {s : Scroller} (h : Reachable s)
    (touchY touchX now liveOffset : ℝ) :
    (onTouchStart s touchY touchX now liveOffset).queuedTransitionStage =
      Stage.NONE ∧
    (s.isDecelerating = true →
      (onTouchStart s touchY touchX now liveOffset).contentOffsetY =
        liveOffset) := by
  constructor
  · by_cases hd : s.isDecelerating = true
    · simp [onTouchStart, stopMomentum, hd, animateTo]
    · have hstage : s.queuedTransitionStage = Stage.NONE := by
        by_contra hne
        exact hd (stage_decel_invariant h hne)
      simp [onTouchStart, stopMomentum, hd, hstage]
  · intro hd
    simp [onTouchStart, stopMomentum, hd, animateTo]

/-- C6 witness: on a fresh scroller the touch-start handler leaves the
stage at NONE. -/
theorem C6_witness :
    (onTouchStart (initial 0 900 300) 10 20 0 0).queuedTransitionStage =
      Stage.NONE :=
  (C6_touchStart_collapses (Reachable.init 0 900 300) 10 20 0 0).1

/-- C8 counterexample: starting from content offset -300 on the scenario
geometry, a fast flick of 3 pixels (touch-start at y 100 and time 0,
touch-move to y 103 at time 1, then touch-end) stays below
DRAG_THRESHOLD = 5, so a click is synthesized; yet the handler also runs
its momentum logic (the drag flag is set unconditionally at touch-start)
and the two-sample velocity 3 drives the content to offset 0, so the
content offset does not stay unchanged. -/
theorem C8_counterexample :
    |c8b.currentPoint - c8b.startTouchY| < DRAG_THRESHOLD ∧
    onTouchStart cex8 100 50 0 0 = c8a ∧
    onTouchMove c8a 103 1 = c8b ∧
    (onTouchEnd c8b).2 = true ∧
    (onTouchEnd c8b).1.contentOffsetY = 0 ∧
    cex8.contentOffsetY = -300 ∧ (0 : ℝ) ≠ -300 := by
  have hdrag : isDragging c8a := Or.inl rfl
  have hoob : ¬ isOutOfBounds c8a := by
    norm_num [isOutOfBounds, positionIsOutOfBounds, getLowestContentPosition,
      c8a]
  refine ⟨?_, ?_, ?_, ?_, ?_, ?_, by norm_num⟩
  · norm_num [c8b, DRAG_THRESHOLD]
  · norm_num [onTouchStart, stopMomentum, cex8, initial, c8a,
      Scroller.mk.injEq]
  · simp only [onTouchMove]
    rw [if_pos hdrag, if_neg hoob]
    norm_num [animateTo, c8a, c8b, Scroller.mk.injEq]
  · norm_num [onTouchEnd, isDragging, isOutOfBounds, positionIsOutOfBounds,
      getLowestContentPosition, doMomentum, getEndVelocityOf, getEndVelocity,
      setUpTransitionStage1, getAcceleration, ACCELERATION_SLIDING, sign,
      MAXIMUM_VELOCITY, DRAG_THRESHOLD, animateTo, c8b, abs_of_pos,
      abs_of_nonneg]
  · norm_num [onTouchEnd, isDragging, isOutOfBounds, positionIsOutOfBounds,
      getLowestContentPosition, doMomentum, getEndVelocityOf, getEndVelocity,
      setUpTransitionStage1, getAcceleration, ACCELERATION_SLIDING, sign,
      MAXIMUM_VELOCITY, DRAG_THRESHOLD, animateTo, c8b, abs_of_pos,
      abs_of_nonneg]
  · norm_num [cex8, initial]

/-- C8 amended: a touch sequence with no intervening move (so the sampled
end velocity is 0) and an in-bounds offset is treated as a tap: a click is
synthesized and the content offset is unchanged.  In general a
sub-threshold gesture still runs the momentum logic, which can move the
content (C8_counterexample). -/
theorem C8_tap (s : Scroller) (touchY touchX now liveOffset : ℝ)
    (hdecel : s.isDecelerating = false) (hoob : ¬ isOutOfBounds s) :
    (onTouchEnd (onTouchStart s touchY touchX now liveOffset)).2 = true ∧
    (onTouchEnd (onTouchStart s touchY touchX now liveOffset)).1.contentOffsetY =
      s.contentOffsetY := by
  simp only [isOutOfBounds, positionIsOutOfBounds, getLowestContentPosition]
    at hoob
  have h1 : ¬(s.contentOffsetY > 0) := fun hc => hoob (Or.inl hc)
  have h2 : ¬(s.contentOffsetY < -s.elementHeight + s.frameElementHeight) :=
    fun hc => hoob (Or.inr hc)
  have hcond : ¬(0 < s.contentOffsetY ∨
      s.elementHeight + s.contentOffsetY < s.frameElementHeight) := by
    push_neg
    refine ⟨not_lt.mp h1, ?_⟩
    have := not_lt.mp h2
    linarith
  constructor <;>
    norm_num [onTouchEnd, onTouchStart, stopMomentum, hdecel, doMomentum,
      getEndVelocityOf, getEndVelocity, isDragging, isOutOfBounds,
      positionIsOutOfBounds, getLowestContentPosition, DRAG_THRESHOLD,
      animateTo, MAXIMUM_VELOCITY, sign, hcond]

/-- C8 witness: a plain tap on a fresh scroller synthesizes a click. -/
theorem C8_witness :
    (onTouchEnd (onTouchStart (initial 1 900 300) 100 50 0 0)).2 = true :=
  (C8_tap (initial 1 900 300) 100 50 0 0 rfl
    (by norm_num [isOutOfBounds, positionIsOutOfBounds,
      getLowestContentPosition, initial])).1

end Theorems

end MomentumScrollerModel
